import Mathlib

/-!
Shallow embedding of the session engine of the local academic tutor.

The embedded code comes from two files of the repository:

* `app.py` — the CLI client: keyword query classification
  (`detect_query_type`, `get_optimal_params`), the streaming answer
  accumulation (`ask`), the memory window (`trim_memory`), the command
  handlers (`/clear`, `/batch`, `/export`) and the main loop turn.
* `tutor.py` — the enhanced web tutor: the `EnhancedTutor.ask` generator
  (inline memory trim, partial-snapshot yields, error yield, history and
  metadata update), `clear_history` and `export_conversation`.

The inference server, the Pygments highlighter and the file system are
external collaborators; they are modelled as explicit parameters
(an oracle giving the fragment stream and its termination, a highlighter
function, a write-success flag).
-/

namespace LocalTutor

/-- Role of one conversation turn. -/
inductive Role
  | system
  | user
  | assistant
  deriving DecidableEq, Repr

/-- One conversation turn: a role/content message dict of the source. -/
structure Msg where
  role : Role
  content : String
  deriving DecidableEq, Repr

/-- Build a user message, `{"role": "user", "content": s}`. -/
def userMsg (s : String) : Msg := ⟨Role.user, s⟩

/-- Build an assistant message, `{"role": "assistant", "content": s}`. -/
def assistantMsg (s : String) : Msg := ⟨Role.assistant, s⟩

/-- The `SYSTEM_PROMPT` constant of `app.py`. -/
def SYSTEM_PROMPT : String :=
  "You are a local AI assistant running entirely on the user’s machine via Ollama.\n\nPrimary objective:\nProduce correct, concise, high-signal answers with minimal latency.\n\nOperational rules:\n- Answer directly. No preambles.\n- Do not repeat the question.\n- Do not add filler, politeness, or commentary.\n- Do not explain unless explanation is explicitly required.\n- Prefer short sentences.\n- Prefer lists only when they reduce length.\n- Avoid speculation. If uncertain, say “I don’t know.”\n- Correct factual errors plainly.\n\nReasoning:\n- Use internal reasoning silently.\n- Show steps only when solving math, logic, or code debugging.\n- Otherwise, output conclusions only.\n\nStyle constraints:\n- No emojis.\n- No motivational language.\n- No disclaimers.\n- No moralizing.\n- No roleplay unless explicitly requested.\n- Neutral, technical tone.\n\nBehavioral constraints:\n- Stay on-topic.\n- Do not drift into unrelated explanations.\n- Do not invent facts.\n- Do not argue with the user.\n- Do not ask follow-up questions unless clarification is strictly required.\n\nPerformance constraints:\n- Optimize for fast response over verbosity.\n- Prefer deterministic answers.\n- Avoid creative rewriting unless explicitly requested.\n\nYou are an academic and technical assistant.\nYour job is correctness, clarity, and speed."

/-- The system turn of the CLI session, `{"role": "system", "content": SYSTEM_PROMPT}`. -/
def sysMsg : Msg := ⟨Role.system, SYSTEM_PROMPT⟩

/-- The `MAX_MEMORY` constant of `app.py`. -/
def MAX_MEMORY : Nat := 4

/-- Python `question.lower()`: lowercase every character. (Equal to
`String.toLower`, but defined by a structural `List.map` so that it
reduces in the kernel.) -/
def pyLower (s : String) : String :=
  ⟨s.data.map Char.toLower⟩

/-- Substring test on character lists: Python `kw in s`.
`hasSubstr kw hay` is true when `kw` occurs contiguously in `hay`. -/
def hasSubstr (kw : List Char) : List Char → Bool
  | [] => kw.isEmpty
  | c :: cs => kw.isPrefixOf (c :: cs) || hasSubstr kw cs

/-- Substring test on strings: Python `kw in hay`. -/
def strContains (hay kw : String) : Bool :=
  hasSubstr kw.data hay.data

/-- The math keyword set of `detect_query_type`. -/
def mathKws : List String := ["math", "derive", "solve", "equation"]

/-- The code keyword set of `detect_query_type`. -/
def codeKws : List String := ["code", "program", "debug", "algorithm"]

/-- The explanation keyword set of `detect_query_type`. -/
def explainKws : List String := ["explain", "why", "how", "mechanism"]

/-- `detect_query_type` of `app.py` (identical in `tutor.py`): lowercase the
question, then test the keyword sets in priority order, first match wins. -/
def detect_query_type (question : String) : String :=
  let ql := pyLower question
  if mathKws.any (fun kw => strContains ql kw) then "math"
  else if codeKws.any (fun kw => strContains ql kw) then "code"
  else if explainKws.any (fun kw => strContains ql kw) then "detailed"
  else "default"

/-- Generation parameters: temperature and `max_tokens`. The Python floats
0.1 … 0.4 are exact decimal literals, embedded as rationals. -/
structure Params where
  temperature : ℚ
  maxTokens : Nat
  deriving DecidableEq, Repr

/-- The `params_map` table of `get_optimal_params`, keyed by label. -/
def params_map (label : String) : Params :=
  if label = "math" then ⟨0.2, 300⟩
  else if label = "code" then ⟨0.1, 400⟩
  else if label = "detailed" then ⟨0.4, 500⟩
  else ⟨0.3, 200⟩

/-- `get_optimal_params` of `app.py` (identical in `tutor.py`). -/
def get_optimal_params (question : String) : Params :=
  params_map (detect_query_type question)

/-- How a fragment stream ends: normal exhaustion, or an exception raised
by the inference call with its message. -/
inductive StreamEnd
  | done
  | error (msg : String)
  deriving DecidableEq, Repr

/-- The fragments with non-empty content: chunks whose delta content is
empty are skipped by the `if chunk.choices and chunk.choices[0].delta.content`
guard. -/
def contentFrags (frags : List String) : List String :=
  frags.filter (fun f => ¬ f = "")

/-- The full text accumulated from a fragment stream: the `full_text += text`
loop, starting from the empty buffer, over the fragments with content. -/
def joinFrags (frags : List String) : String :=
  (contentFrags frags).foldl (fun a b => a ++ b) ""

/-- Return value of the CLI `ask` of `app.py`, given the delivered fragments
and how the stream ended: the accumulated text, `"No response"` when the
stream exhausted with an empty buffer, and `""` when an exception was
raised (the `except` branch). -/
def cliAskResult (frags : List String) (ending : StreamEnd) : String :=
  match ending with
  | StreamEnd.error _ => ""
  | StreamEnd.done =>
      let full := joinFrags frags
      if full = "" then "No response" else full

/-- Content of the last user message: the
`next((m['content'] for m in reversed(messages) if m['role'] == 'user'), "")`
expression of `ask`. -/
def lastUserContent (msgs : List Msg) : String :=
  ((msgs.reverse.find? (fun m => m.role == Role.user)).map Msg.content).getD ""

/-- The inference-call collaborator: given the outgoing message set and the
generation parameters, it produces a fragment stream and its termination. -/
abbrev Oracle : Type := List Msg → Params → List String × StreamEnd

/-- The CLI `ask` of `app.py`: pick parameters from the last user question,
invoke the inference call, accumulate the stream. -/
def cliAsk (oracle : Oracle) (msgs : List Msg) : String :=
  let p := get_optimal_params (lastUserContent msgs)
  let (frags, ending) := oracle msgs p
  cliAskResult frags ending

/-- `trim_memory` of `app.py`: keep the sequence when its length is at most
`MAX_MEMORY * 2 + 1`, otherwise keep `messages[0]` plus the last
`MAX_MEMORY * 2` entries (`[messages[0]] + messages[-(MAX_MEMORY * 2):]`). -/
def trim_memory (messages : List Msg) : List Msg :=
  if messages.length ≤ MAX_MEMORY * 2 + 1 then messages
  else messages.take 1 ++ messages.drop (messages.length - MAX_MEMORY * 2)

/-- One turn of the `main` loop of `app.py`, with the `ask` return value
given as `response`: append the user question, trim, then append the
assistant turn only when the response is truthy (non-empty). -/
def cliTurn (messages : List Msg) (question response : String) : List Msg :=
  let m := trim_memory (messages ++ [userMsg question])
  if response = "" then m else m ++ [assistantMsg response]

/-- One turn of the `main` loop of `app.py` driven by the inference oracle:
the response is what `ask` returns on the trimmed message set. -/
def cliTurnWith (oracle : Oracle) (messages : List Msg) (question : String) : List Msg :=
  cliTurn messages question (cliAsk oracle (trim_memory (messages ++ [userMsg question])))

/-- A CLI session of `app.py`: start from the system turn only and submit
the questions in order. -/
def runSession (oracle : Oracle) (questions : List String) : List Msg :=
  questions.foldl (cliTurnWith oracle) [sysMsg]

/-- The `/clear` branch of `handle_command` of `app.py`: `return [messages[0]]`.
The session list is never empty (it always starts with the system turn);
on non-empty lists `messages.take 1 = [messages[0]]`. -/
def clearCommand (messages : List Msg) : List Msg :=
  messages.take 1

/-- A memory-window operation of the spec: append one turn, or trim. -/
inductive MemOp
  | push (m : Msg)
  | trim
  deriving Repr

/-- Apply one memory-window operation to the stored sequence. -/
def applyOp (msgs : List Msg) : MemOp → List Msg
  | MemOp.push m => msgs ++ [m]
  | MemOp.trim => trim_memory msgs

/-- Apply a sequence of memory-window operations in order. -/
def applyOps (ops : List MemOp) (msgs : List Msg) : List Msg :=
  ops.foldl applyOp msgs

/-- The inline memory trim of `EnhancedTutor.ask` in `tutor.py`:
`if len(messages) > max_memory * 2 + 2: messages = [messages[0]] + messages[-max_memory*2:]`.
Note the threshold is `2·W + 2`, and that for `max_memory = 0` the Python
slice `messages[-0:]` is the whole list. -/
def tutorTrim (maxMemory : Nat) (messages : List Msg) : List Msg :=
  if messages.length > maxMemory * 2 + 2 then
    if maxMemory = 0 then messages.take 1 ++ messages
    else messages.take 1 ++ messages.drop (messages.length - maxMemory * 2)
  else messages

/-- Partial snapshots yielded during the streaming loop of
`EnhancedTutor.ask`: for every fragment with non-empty content, the buffer
grows and its full current value is yielded. -/
def partialsAux (acc : String) : List String → List String
  | [] => []
  | f :: fs =>
      if f = "" then partialsAux acc fs
      else (acc ++ f) :: partialsAux (acc ++ f) fs

/-- Partial snapshots of a whole fragment stream, starting from the empty
buffer. -/
def tutorPartials (frags : List String) : List String :=
  partialsAux "" frags

/-- Python `\w` on a character (ASCII part): letter, digit or underscore. -/
def isWordChar (c : Char) : Bool :=
  c.isAlphanum || c = '_'

/-- The Pygments collaborator of `format_code_in_response`: given a language
name and a code body, either the highlighted HTML, or `none` when
`get_lexer_by_name`/`highlight` raises. -/
abbrev Highlighter : Type := String → String → Option String

/-- Scan for the closing triple-backtick fence: the lazy `(.*?)` of the
regex finds the earliest close. Returns the body (before the fence) and
the remainder (after it). -/
def findClose (pre : List Char) : List Char → Option (List Char × List Char)
  | '`' :: '`' :: '`' :: rest => some (pre.reverse, rest)
  | c :: cs => findClose (c :: pre) cs
  | [] => none

/-- Try to match the regex `` ```(\w+)?\n(.*?)``` `` at the head of the
text: three backticks, an optional language word, a newline, then the
lazily matched body up to the closing fence. Returns (language, body,
remainder). -/
def matchFenceAt : List Char → Option (List Char × List Char × List Char)
  | '`' :: '`' :: '`' :: rest =>
      let lang := rest.takeWhile isWordChar
      match rest.dropWhile isWordChar with
      | '\n' :: body0 =>
          match findClose [] body0 with
          | some (body, tail) => some (lang, body, tail)
          | none => none
      | _ => none
  | _ => none

/-- The `replace_code` replacement of `format_code_in_response`: default
the language to `python`, call the highlighter, wrap success in the
code-block div and failure in the plain `pre`/`code` fallback. -/
def fenceReplacement (hl : Highlighter) (lang body : List Char) : List Char :=
  let langStr : String := if lang = [] then "python" else ⟨lang⟩
  match hl langStr ⟨body⟩ with
  | some highlighted => ("<div class=\"code-block\">" ++ highlighted ++ "</div>").data
  | none => ("<pre><code>" ++ (⟨body⟩ : String) ++ "</code></pre>").data

/-- The `re.sub` scan: walk the text left to right, replacing each fenced
code region, copying other characters unchanged. The fuel argument (the
text length) bounds the recursion; every step consumes at least one
character, so it never runs out. -/
def subFencesAux (hl : Highlighter) : Nat → List Char → List Char
  | 0, cs => cs
  | _ + 1, [] => []
  | fuel + 1, c :: cs =>
      match matchFenceAt (c :: cs) with
      | some (lang, body, tail) => fenceReplacement hl lang body ++ subFencesAux hl fuel tail
      | none => c :: subFencesAux hl fuel cs

/-- `format_code_in_response` of `tutor.py`, parametrized by the Pygments
collaborator. -/
def format_code_in_response (hl : Highlighter) (text : String) : String :=
  ⟨subFencesAux hl text.data.length text.data⟩

/-- The static disclaimer `meta_append` of `EnhancedTutor.ask`. -/
def metaAppend : String :=
  "\n\n---\n*Verify all STEM answers from an authoritative source before using them.*"

/-- The full yielded sequence of `EnhancedTutor.ask` for one stream: the
partial snapshots, then on normal exhaustion the finalized value (the
formatted full response plus the disclaimer), or on an exception the
`"Error: {e}"` yield. -/
def tutorAccumulate (hl : Highlighter) (frags : List String) (ending : StreamEnd) : List String :=
  match ending with
  | StreamEnd.done =>
      tutorPartials frags ++ [format_code_in_response hl (joinFrags frags) ++ metaAppend]
  | StreamEnd.error msg => tutorPartials frags ++ ["Error: " ++ msg]

/-- The state owned by an `EnhancedTutor`: `conversation_history` and the
`session_metadata` dict (creation timestamp, message counter, performance
samples). Timestamps and samples are opaque numbers. -/
structure TutorState where
  history : List Msg
  messagesCount : Nat
  created : Nat
  perfMetrics : List Nat
  deriving DecidableEq, Repr

/-- Effect of one `EnhancedTutor.ask` call on the tutor state: on normal
stream exhaustion the user question and the raw full response are appended
to `conversation_history` and the message counter grows by 2; on an
exception (anywhere in the `try` block) the state is untouched. -/
def tutorAskState (s : TutorState) (question : String) (frags : List String)
    (ending : StreamEnd) : TutorState :=
  match ending with
  | StreamEnd.done =>
      { s with
        history := s.history ++ [userMsg question, assistantMsg (joinFrags frags)],
        messagesCount := s.messagesCount + 2 }
  | StreamEnd.error _ => s

/-- The `clear_history` handler of the Gradio UI in `tutor.py`:
`tutor.conversation_history = []` — nothing else changes. -/
def clear_history (s : TutorState) : TutorState :=
  { s with history := [] }

/-- The export snapshot serialized by `export_conversation`:
`{'metadata': ..., 'conversation': ...}`. -/
structure ExportData where
  created : Nat
  messagesCount : Nat
  perfMetrics : List Nat
  conversation : List Msg
  deriving DecidableEq, Repr

/-- `EnhancedTutor.export_conversation`, with the file system modelled by a
filename (the timestamped name the code builds) and a write-success flag.
The first component is the file written (`none` when no file is written),
the second the return value (`"{}"` on empty history, the filename on
success, `None` on a write failure). -/
def export_conversation (s : TutorState) (fname : String) (writeOk : Bool) :
    Option (String × ExportData) × Option String :=
  if s.history = [] then (none, some "\x7b\x7d")
  else if writeOk then
    (some (fname, ⟨s.created, s.messagesCount, s.perfMetrics, s.history⟩), some fname)
  else (none, none)

/-- Python `s.strip()`: drop leading and trailing whitespace. (Structural,
so that it reduces in the kernel.) -/
def pyStrip (s : String) : String :=
  ⟨((s.data.dropWhile Char.isWhitespace).reverse.dropWhile Char.isWhitespace).reverse⟩

/-- Python `s.split('|')` on a character list: cut at every pipe. -/
def splitPipe : List Char → List (List Char)
  | [] => [[]]
  | c :: cs =>
      if c = '|' then [] :: splitPipe cs
      else
        match splitPipe cs with
        | h :: t => (c :: h) :: t
        | [] => [[c]]

/-- Python `s.split('|')`. -/
def pySplitPipe (s : String) : List String :=
  (splitPipe s.data).map (fun l => ⟨l⟩)

/-- The `/batch` input parsing of `handle_command`:
`[q.strip() for q in batch_input.split('|') if q.strip()]`. -/
def parseBatch (input : String) : List String :=
  ((pySplitPipe input).map pyStrip).filter (fun q => ¬ q = "")

/-- `handle_batch` of `app.py`: answer each question in a fresh context of
exactly the system turn plus that single question. -/
def handle_batch (oracle : Oracle) (questions : List String) : List String :=
  questions.map (fun q => cliAsk oracle [sysMsg, userMsg q])

/-- The `/batch` branch of `handle_command`: strip the raw input, run the
batch when it is non-empty, and return the shared message list unchanged.
The first component is the list of batch answers. -/
def batchCommand (oracle : Oracle) (messages : List Msg) (input : String) :
    List String × List Msg :=
  let bi := pyStrip input
  if bi = "" then ([], messages)
  else (handle_batch oracle (parseBatch bi), messages)

/-- Reference classifier, written from the spec sentence: the keyword sets
with their labels in fixed priority order; the first set with a
case-insensitive substring match wins, no match gives the default label. -/
def classifySpec (question : String) : String :=
  let ql := pyLower question
  let priority : List (List String × String) :=
    [(mathKws, "math"), (codeKws, "code"), (explainKws, "detailed")]
  match priority.find? (fun p => p.1.any (fun kw => strContains ql kw)) with
  | some p => p.2
  | none => "default"

example : detect_query_type "Please SOLVE x" = "math" := by decide
example : detect_query_type "why is the sky blue" = "detailed" := by decide
example : detect_query_type "hello there" = "default" := by decide
example : detect_query_type "solve this code why" = "math" := by decide
example : get_optimal_params "solve it" = ⟨0.2, 300⟩ := by rfl
example : cliAskResult [] StreamEnd.done = "No response" := by decide
example : cliAskResult ["a", "", "b"] StreamEnd.done = "ab" := by decide
example : cliAskResult ["a"] (StreamEnd.error "boom") = "" := by decide
example :
    (runSession (fun _ _ => (["ok"], StreamEnd.done)) ["q1", "q2", "q3", "q4", "q5"]).length = 10 := by
  decide

example : classifySpec "solve this code why" = "math" := by decide
example : classifySpec "debug my loop" = "code" := by decide
example : tutorPartials ["Hel", "", "lo"] = ["Hel", "Hello"] := by decide
example :
    tutorAccumulate (fun _ _ => none) ["Hel"] (StreamEnd.error "boom") = ["Hel", "Error: boom"] := by
  decide
example : tutorAccumulate (fun _ _ => none) [] StreamEnd.done = [metaAppend] := by decide
example : (tutorTrim 4 (List.replicate 10 (userMsg "x"))).length = 10 := by decide
example : parseBatch " a | | b " = ["a", "b"] := by decide
example :
    format_code_in_response (fun _ c => some ("H" ++ c)) "x ```py\nfoo``` y" =
      "x <div class=\"code-block\">Hfoo</div> y" := by
  decide

/-! ## Helper lemmas -/

/-- Trimming never grows past the retention bound `2·W + 1`. -/
theorem trim_memory_length (l : List Msg) :
    (trim_memory l).length ≤ MAX_MEMORY * 2 + 1 := by
  unfold trim_memory
  split
  · assumption
  · next h =>
    simp only [List.length_append, List.length_take, List.length_drop]
    omega

/-- Trimming preserves the element at position 0. -/
theorem trim_memory_head (l : List Msg) : (trim_memory l).head? = l.head? := by
  unfold trim_memory
  split
  · rfl
  · next h =>
    match l with
    | [] => simp at h
    | a :: t => simp

/-- A sequence within the bound is not trimmed. -/
theorem trim_memory_of_le (l : List Msg) (h : l.length ≤ MAX_MEMORY * 2 + 1) :
    trim_memory l = l := by
  unfold trim_memory
  rw [if_pos h]

/-- A sequence past the bound keeps element 0 plus the last `2·W` entries. -/
theorem trim_memory_of_gt (l : List Msg) (h : l.length > MAX_MEMORY * 2 + 1) :
    trim_memory l = l.take 1 ++ l.drop (l.length - MAX_MEMORY * 2) := by
  unfold trim_memory
  rw [if_neg (by omega)]

/-- The tutor's inline trim never grows past `2·W + 2`. -/
theorem tutorTrim_length (mm : Nat) (l : List Msg) (hmm : 1 ≤ mm) :
    (tutorTrim mm l).length ≤ mm * 2 + 2 := by
  unfold tutorTrim
  split
  · next h =>
    rw [if_neg (by omega)]
    simp only [List.length_append, List.length_take, List.length_drop]
    omega
  · next h => omega

/-- The tutor's inline trim preserves the element at position 0. -/
theorem tutorTrim_head (mm : Nat) (l : List Msg) :
    (tutorTrim mm l).head? = l.head? := by
  unfold tutorTrim
  split
  · next h =>
    match l with
    | [] => simp at h
    | a :: t =>
      split
      · simp
      · simp
  · rfl

/-- Past its threshold `2·W + 2`, the tutor's inline trim keeps element 0
plus the last `2·W` entries. -/
theorem tutorTrim_of_gt (mm : Nat) (l : List Msg) (hmm : 1 ≤ mm)
    (h : l.length > mm * 2 + 2) :
    tutorTrim mm l = l.take 1 ++ l.drop (l.length - mm * 2) := by
  unfold tutorTrim
  rw [if_pos h, if_neg (by omega)]

/-- A trim op at the end of an operation sequence is `trim_memory` of the
state reached by the earlier operations. -/
theorem applyOps_concat_trim (pre : List MemOp) (init : List Msg) :
    applyOps (pre ++ [MemOp.trim]) init = trim_memory (applyOps pre init) := by
  unfold applyOps
  rw [List.foldl_append]
  rfl

/-- One successful short turn of the `main` loop: while the window is not
full, the user question and the non-empty response are appended whole. -/
theorem cliTurn_small (msgs : List Msg) (q r : String)
    (hlen : msgs.length + 1 ≤ MAX_MEMORY * 2 + 1) (hr : ¬ r = "") :
    cliTurn msgs q r = msgs ++ [userMsg q, assistantMsg r] := by
  unfold cliTurn
  rw [trim_memory_of_le _ (by simp; omega), if_neg hr]
  simp

/-- The partial snapshots of a stream: none when no fragment has content,
and otherwise the last snapshot is the whole accumulated buffer. -/
theorem partialsAux_spec (fs : List String) : ∀ acc : String,
    (contentFrags fs = [] → partialsAux acc fs = [])
    ∧ (contentFrags fs ≠ [] →
        (partialsAux acc fs).getLast? =
          some ((contentFrags fs).foldl (fun a b => a ++ b) acc)) := by
  induction fs with
  | nil => exact fun acc => ⟨fun _ => rfl, fun h => absurd rfl h⟩
  | cons f fs ih =>
    intro acc
    by_cases hf : f = ""
    · constructor
      · intro h
        have hfs : contentFrags fs = [] := by
          simpa [contentFrags, hf] using h
        simpa [partialsAux, hf] using (ih acc).1 hfs
      · intro h
        have hfs : contentFrags fs ≠ [] := by
          simpa [contentFrags, hf] using h
        have := (ih acc).2 hfs
        simpa [partialsAux, hf, contentFrags] using this
    · have hcf : contentFrags (f :: fs) = f :: contentFrags fs := by
        simp [contentFrags, hf]
      constructor
      · intro h
        simp [contentFrags, hf] at h
      · intro h
        simp only [partialsAux, if_neg hf]
        rw [hcf]
        by_cases hfs : contentFrags fs = []
        · have hnil := (ih (acc ++ f)).1 hfs
          rw [hnil, hfs]
          simp
        · have hlast := (ih (acc ++ f)).2 hfs
          have hne : partialsAux (acc ++ f) fs ≠ [] := by
            intro hcontra
            rw [hcontra] at hlast
            simp at hlast
          obtain ⟨b, t, hbt⟩ := List.exists_cons_of_ne_nil hne
          rw [hbt, List.getLast?_cons_cons, ← hbt, hlast]
          simp

/-! ## Claims -/

/-- C1 (counterexample): in the CLI main loop with W = 4, starting from the
system turn only, after 5 submitted and successfully answered questions the
stored conversation does NOT have 9 turns — it has 10, because the trim runs
after the user turn is appended but before the assistant turn is. -/
theorem c1_counterexample :
    (runSession (fun _ _ => (["ok"], StreamEnd.done))
        ["q1", "q2", "q3", "q4", "q5"]).length ≠ 9 := by
  decide

/-- C1 (amended): after 5 submitted questions each answered with a non-empty
response, the stored conversation has exactly 10 turns: the system turn at
position 0, then the orphaned first assistant turn, then the last 4
user/assistant pairs in order. Only the oldest user turn was evicted, so
eviction does not happen in whole pairs. -/
theorem c1_amended (q1 q2 q3 q4 q5 r1 r2 r3 r4 r5 : String)
    (h1 : ¬ r1 = "") (h2 : ¬ r2 = "") (h3 : ¬ r3 = "")
    (h4 : ¬ r4 = "") (h5 : ¬ r5 = "") :
    cliTurn (cliTurn (cliTurn (cliTurn (cliTurn [sysMsg] q1 r1) q2 r2) q3 r3) q4 r4) q5 r5 =
      [sysMsg, assistantMsg r1, userMsg q2, assistantMsg r2, userMsg q3, assistantMsg r3,
        userMsg q4, assistantMsg r4, userMsg q5, assistantMsg r5] := by
  rw [cliTurn_small [sysMsg] q1 r1 (by decide) h1]
  rw [cliTurn_small _ q2 r2 (by simp [MAX_MEMORY]) h2]
  rw [cliTurn_small _ q3 r3 (by simp [MAX_MEMORY]) h3]
  rw [cliTurn_small _ q4 r4 (by simp [MAX_MEMORY]) h4]
  unfold cliTurn
  rw [trim_memory_of_gt _ (by simp [MAX_MEMORY]), if_neg h5]
  simp [MAX_MEMORY]

/-- C1 (witness). -/
theorem c1_amended_witness :
    cliTurn (cliTurn (cliTurn (cliTurn (cliTurn [sysMsg] "a" "r1") "b" "r2") "c" "r3")
        "d" "r4") "e" "r5" =
      [sysMsg, assistantMsg "r1", userMsg "b", assistantMsg "r2", userMsg "c",
        assistantMsg "r3", userMsg "d", assistantMsg "r4", userMsg "e", assistantMsg "r5"] :=
  c1_amended "a" "b" "c" "d" "e" "r1" "r2" "r3" "r4" "r5"
    (by decide) (by decide) (by decide) (by decide) (by decide)

/-- C2 (counterexample): the trim inside `EnhancedTutor.ask` only fires when
the length exceeds `2·W + 2`, so a stored sequence of length `2·W + 2 = 10`
(with W = 4) survives a trim untouched, violating the claimed `≤ 2·W + 1`
bound. -/
theorem c2_counterexample :
    ¬ ((tutorTrim 4 (List.replicate 10 (userMsg "x"))).length ≤ 2 * 4 + 1) := by
  decide

/-- C2 (amended): for the CLI `trim_memory` the claim holds exactly as stated
(for every operation interleaving ending in a trim: length ≤ 2·W + 1, first
element preserved, and past the bound exactly element 0 plus the last 2·W
entries are kept). The `EnhancedTutor.ask` inline trim instead guarantees
only length ≤ 2·W + 2, preserves the first element, and keeps element 0 plus
the last 2·W entries only when the pre-trim length exceeds 2·W + 2. -/
theorem c2_amended (pre : List MemOp) (init : List Msg) (mm : Nat) (l : List Msg)
    (hmm : 1 ≤ mm) :
    (applyOps (pre ++ [MemOp.trim]) init).length ≤ MAX_MEMORY * 2 + 1
    ∧ (applyOps (pre ++ [MemOp.trim]) init).head? = (applyOps pre init).head?
    ∧ ((applyOps pre init).length > MAX_MEMORY * 2 + 1 →
        applyOps (pre ++ [MemOp.trim]) init =
          (applyOps pre init).take 1
            ++ (applyOps pre init).drop ((applyOps pre init).length - MAX_MEMORY * 2))
    ∧ (tutorTrim mm l).length ≤ mm * 2 + 2
    ∧ (tutorTrim mm l).head? = l.head?
    ∧ (l.length > mm * 2 + 2 →
        tutorTrim mm l = l.take 1 ++ l.drop (l.length - mm * 2)) := by
  rw [applyOps_concat_trim]
  exact ⟨trim_memory_length _, trim_memory_head _, fun h => trim_memory_of_gt _ h,
    tutorTrim_length mm l hmm, tutorTrim_head mm l, fun h => tutorTrim_of_gt mm l hmm h⟩

/-- C2 (witness). -/
theorem c2_amended_witness :
    (applyOps ([] ++ [MemOp.trim]) ([] : List Msg)).length ≤ MAX_MEMORY * 2 + 1
    ∧ (applyOps ([] ++ [MemOp.trim]) ([] : List Msg)).head? = (applyOps [] ([] : List Msg)).head?
    ∧ ((applyOps [] ([] : List Msg)).length > MAX_MEMORY * 2 + 1 →
        applyOps ([] ++ [MemOp.trim]) ([] : List Msg) =
          (applyOps [] ([] : List Msg)).take 1
            ++ (applyOps [] ([] : List Msg)).drop
                ((applyOps [] ([] : List Msg)).length - MAX_MEMORY * 2))
    ∧ (tutorTrim 1 ([] : List Msg)).length ≤ 1 * 2 + 2
    ∧ (tutorTrim 1 ([] : List Msg)).head? = ([] : List Msg).head?
    ∧ (([] : List Msg).length > 1 * 2 + 2 →
        tutorTrim 1 ([] : List Msg) =
          ([] : List Msg).take 1 ++ ([] : List Msg).drop (([] : List Msg).length - 1 * 2)) :=
  c2_amended [] [] 1 [] (by decide)

/-- C3 (confirmed): classification agrees with the reference definition from
the spec (priority-ordered case-insensitive keyword containment, first match
wins, default on no match), and any question whose lowercased text contains a
math keyword — even alongside code or explanation keywords — classifies as
`math` with temperature 0.2 and max output length 300. -/
theorem c3_classify (q : String) :
    detect_query_type q = classifySpec q
    ∧ (mathKws.any (fun kw => strContains (pyLower q) kw) = true →
        detect_query_type q = "math" ∧ get_optimal_params q = ⟨0.2, 300⟩) := by
  constructor
  · unfold detect_query_type classifySpec
    cases h1 : mathKws.any (fun kw => strContains (pyLower q) kw) <;>
      cases h2 : codeKws.any (fun kw => strContains (pyLower q) kw) <;>
        cases h3 : explainKws.any (fun kw => strContains (pyLower q) kw) <;>
          simp [h1, h2, h3, List.find?]
  · intro hm
    have hd : detect_query_type q = "math" := by
      unfold detect_query_type
      simp [hm]
    exact ⟨hd, by unfold get_optimal_params; rw [hd]; rfl⟩

/-- C3 (witness): a question containing a math, a code and an explanation
keyword classifies as math with the math parameter tuple. -/
theorem c3_classify_witness :
    detect_query_type "solve this code why" = "math"
    ∧ get_optimal_params "solve this code why" = ⟨0.2, 300⟩ :=
  (c3_classify "solve this code why").2 (by decide)

/-- C4 (counterexample): a stream that delivers the fragment `"Hel"` and then
signals the error `"boom"` makes `EnhancedTutor.ask` yield `"Hel"` and then
exactly `"Error: boom"`: the final yield does not extend the partial buffer
(`"Hel"` is not a prefix of it), contradicting the claim that the partial
buffer is yielded with the error marker appended. -/
theorem c4_counterexample :
    tutorAccumulate (fun _ _ => none) ["Hel"] (StreamEnd.error "boom") = ["Hel", "Error: boom"]
    ∧ "Hel".data.isPrefixOf "Error: boom".data = false := by
  exact ⟨by decide, by decide⟩

/-- C4 (amended): on a mid-stream error the tutor accumulator yields the
partial snapshots (the last of which is the whole buffer accumulated before
the error) followed by a final yield consisting solely of the error marker
`"Error: " ++ msg`; the partial buffer is not part of that final yield. The
CLI `ask` discards the partial text entirely and returns `""`. -/
theorem c4_amended (hl : Highlighter) (frags : List String) (emsg : String)
    (hne : contentFrags frags ≠ []) :
    tutorAccumulate hl frags (StreamEnd.error emsg) = tutorPartials frags ++ ["Error: " ++ emsg]
    ∧ (tutorPartials frags).getLast? = some (joinFrags frags)
    ∧ cliAskResult frags (StreamEnd.error emsg) = "" :=
  ⟨rfl, (partialsAux_spec frags "").2 hne, rfl⟩

/-- C4 (witness). -/
theorem c4_amended_witness :
    tutorAccumulate (fun _ _ => none) ["Hel"] (StreamEnd.error "boom") =
        tutorPartials ["Hel"] ++ ["Error: " ++ "boom"]
    ∧ (tutorPartials ["Hel"]).getLast? = some (joinFrags ["Hel"])
    ∧ cliAskResult ["Hel"] (StreamEnd.error "boom") = "" :=
  c4_amended (fun _ _ => none) ["Hel"] "boom" (by decide)

/-- C5 (counterexample): when the inference call fails before any fragment on
a turn of the CLI main loop, the stored conversation is NOT what it was
before the turn: the failed user question stays appended. -/
theorem c5_counterexample :
    cliTurn [sysMsg] "hi" "" ≠ [sysMsg] := by
  intro h
  have h2 := congrArg List.length h
  simp [cliTurn, trim_memory, MAX_MEMORY] at h2

/-- C5 (amended): on a failed inference call the CLI surfaces `""` from `ask`
and stores the trimmed history with the failed user question appended and no
assistant turn; the `EnhancedTutor` engine, by contrast, leaves its
conversation history and metadata exactly unchanged. -/
theorem c5_amended (msgs : List Msg) (q : String) (s : TutorState)
    (frags : List String) (emsg : String) :
    cliTurn msgs q "" = trim_memory (msgs ++ [userMsg q])
    ∧ cliAskResult frags (StreamEnd.error emsg) = ""
    ∧ tutorAskState s q frags (StreamEnd.error emsg) = s :=
  ⟨by simp [cliTurn], rfl, rfl⟩

/-- C6 (counterexample): `clear_history` does not reset the message counter:
on a tutor state with counter 2 the counter is still 2 (not 0) after the
clear, contradicting the claim that the counters equal zero. -/
theorem c6_counterexample :
    (clear_history ⟨[userMsg "hi", assistantMsg "yo"], 2, 42, []⟩).messagesCount ≠ 0 := by
  decide

/-- C6 (amended): after the clear command the CLI conversation is exactly the
one turn that was at position 0 (the system turn), and the tutor's stored
history becomes empty; the metadata creation timestamp is preserved — but the
message counter is left unchanged, not reset to zero. -/
theorem c6_amended (s : TutorState) (msgs : List Msg) (h : ¬ msgs = []) :
    (clear_history s).history = []
    ∧ (clear_history s).created = s.created
    ∧ (clear_history s).messagesCount = s.messagesCount
    ∧ clearCommand msgs = msgs.take 1
    ∧ (clearCommand msgs).length = 1
    ∧ (clearCommand msgs).head? = msgs.head? := by
  refine ⟨rfl, rfl, rfl, rfl, ?_, ?_⟩
  · match msgs with
    | [] => exact absurd rfl h
    | a :: t => simp [clearCommand]
  · match msgs with
    | [] => exact absurd rfl h
    | a :: t => simp [clearCommand]

/-- C6 (witness). -/
theorem c6_amended_witness :
    (clear_history ⟨[userMsg "u"], 2, 7, []⟩).history = []
    ∧ (clear_history ⟨[userMsg "u"], 2, 7, []⟩).created =
        (⟨[userMsg "u"], 2, 7, []⟩ : TutorState).created
    ∧ (clear_history ⟨[userMsg "u"], 2, 7, []⟩).messagesCount =
        (⟨[userMsg "u"], 2, 7, []⟩ : TutorState).messagesCount
    ∧ clearCommand [sysMsg] = [sysMsg].take 1
    ∧ (clearCommand [sysMsg]).length = 1
    ∧ (clearCommand [sysMsg]).head? = [sysMsg].head? :=
  c6_amended ⟨[userMsg "u"], 2, 7, []⟩ [sysMsg] (by decide)

/-- C7 (counterexample): on the empty fragment stream `EnhancedTutor.ask`
yields exactly one value, but that value is the static disclaimer appended to
the empty buffer — not a `"no response"` sentinel. -/
theorem c7_counterexample :
    tutorAccumulate (fun _ _ => none) [] StreamEnd.done = [metaAppend]
    ∧ ¬ metaAppend = "No response" := by
  exact ⟨by decide, by decide⟩

/-- C7 (amended): on the empty fragment stream the CLI accumulator produces
exactly the single sentinel `"No response"`, while the tutor accumulator
yields exactly one value equal to the empty buffer with the static
disclaimer appended. -/
theorem c7_amended (hl : Highlighter) :
    cliAskResult [] StreamEnd.done = "No response"
    ∧ tutorAccumulate hl [] StreamEnd.done = [metaAppend] :=
  ⟨rfl, rfl⟩

/-- C8 (confirmed): every batch question is answered in a fresh context of
exactly the system turn plus that single question; the batch outputs are a
function of the batch input alone (changing the shared conversation does not
change them), and the shared conversation comes back unchanged. -/
theorem c8_batch_isolated (oracle : Oracle) (msgs msgs' : List Msg) (input : String) :
    (batchCommand oracle msgs input).1 = (batchCommand oracle msgs' input).1
    ∧ (batchCommand oracle msgs input).2 = msgs
    ∧ (batchCommand oracle msgs input).1 =
        if pyStrip input = "" then []
        else (parseBatch (pyStrip input)).map (fun q => cliAsk oracle [sysMsg, userMsg q]) := by
  unfold batchCommand handle_batch
  by_cases h : pyStrip input = "" <;> simp [h]

/-- C9 (confirmed): the CLI trim is idempotent — a sequence within the
`2·W + 1` bound is returned unchanged, and trimming twice equals trimming
once. -/
theorem c9_trim_idempotent :
    (∀ l : List Msg, l.length ≤ MAX_MEMORY * 2 + 1 → trim_memory l = l)
    ∧ ∀ l : List Msg, trim_memory (trim_memory l) = trim_memory l :=
  ⟨fun l h => trim_memory_of_le l h,
   fun l => trim_memory_of_le _ (trim_memory_length l)⟩

/-- C9 (witness). -/
theorem c9_trim_idempotent_witness :
    trim_memory [sysMsg] = [sysMsg]
    ∧ trim_memory (trim_memory [sysMsg]) = trim_memory [sysMsg] :=
  ⟨c9_trim_idempotent.1 [sysMsg] (by decide), c9_trim_idempotent.2 [sysMsg]⟩

/-- C10 (confirmed): with an empty conversation history the export writes no
file and returns the literal `"{}"`; a file is only ever written when the
history is non-empty. -/
theorem c10_export (s : TutorState) (fname : String) (writeOk : Bool) :
    (s.history = [] →
      export_conversation s fname writeOk = (none, some "\x7b\x7d"))
    ∧ ∀ file ret, export_conversation s fname writeOk = (some file, ret) →
        ¬ s.history = [] := by
  constructor
  · intro h
    unfold export_conversation
    rw [if_pos h]
  · intro file ret h hemp
    unfold export_conversation at h
    rw [if_pos hemp] at h
    simp at h

/-- C10 (witness). -/
theorem c10_export_witness :
    export_conversation ⟨[], 0, 0, []⟩ "chat_export.json" true = (none, some "\x7b\x7d") :=
  (c10_export ⟨[], 0, 0, []⟩ "chat_export.json" true).1 rfl

end LocalTutor
